import Mathlib

/-!
Verification of the reconciliation core of the mx-bulk-vlan-addressing tool
(`src/main.py`).  The Python functions `validate_excel_format`,
`validate_excel_data`, `validate_excel`, `create_networks`, `create_vlans`,
`apply_excel_data` and the relevant branches of `main` are shallowly embedded
below.  Remote API calls (`getOrganizationNetworks`,
`getNetworkApplianceVlans`, `createOrganizationNetwork`,
`createNetworkApplianceVlan`, `updateNetworkApplianceVlan`) are passed in as
explicit `Except`-valued function parameters, so a run of the pipeline is a
pure computation over those parameters.
-/

/-- A spreadsheet cell as delivered by `pandas.read_excel`: a string, an
integer, a (decimal) floating-point number, or a missing value (NaN).
The `float m e` constructor denotes the decimal value `m / 10^e`; Python
floats read from a spreadsheet are decimal literals, which this represents
exactly.  (Boolean cells and `None` cells are not modelled.) -/
inductive ExcelValue where
  | str (s : String)
  | int (n : Int)
  | float (m : Int) (e : Nat)
  | nan
deriving DecidableEq, Repr

/-- Normalise a decimal `m / 10^e` by removing trailing factors of 10,
used to print a float the way Python `str` prints it. -/
def normDec : Int → Nat → Int × Nat
  | m, 0 => (m, 0)
  | m, e + 1 => if m % 10 = 0 then normDec (m / 10) e else (m, e + 1)

/-- Python `str` of a float: sign, integer part, dot, fractional digits
(`str(10.0) = "10.0"`, `str(5.5) = "5.5"`).  Exponent notation for very
large/small magnitudes is not modelled. -/
def floatRepr (m : Int) (e : Nat) : String :=
  let p := normDec m e
  let sign := if p.1 < 0 then "-" else ""
  let n := p.1.natAbs
  if p.2 = 0 then sign ++ toString n ++ ".0"
  else
    let ip := n / 10 ^ p.2
    let fp := n % 10 ^ p.2
    let fs := toString fp
    let pad := String.mk (List.replicate (p.2 - fs.length) '0')
    sign ++ toString ip ++ "." ++ pad ++ fs

/-- Python `str` of a cell value (`str(nan) = "nan"`). -/
def pyStr : ExcelValue → String
  | .str s => s
  | .int n => toString n
  | .float m e => floatRepr m e
  | .nan => "nan"

/-- Python whitespace characters (the ASCII ones recognised by `str.strip`
and by `\s`). -/
def pyIsSpace (c : Char) : Bool :=
  c = ' ' ∨ c = '\t' ∨ c = '\n' ∨ c = '\r' ∨ c = '\x0b' ∨ c = '\x0c'

/-- Python `s.strip()`: remove whitespace from both ends. -/
def pyStrip (s : String) : String :=
  String.mk (((s.toList.dropWhile pyIsSpace).reverse.dropWhile pyIsSpace).reverse)

/-- Split a character list on a separator character, keeping empty segments,
as Python `str.split` with an explicit separator does
(`"".split(sep) = [""]`, `"a.".split(".") = ["a", ""]`). -/
def splitOnChar (sep : Char) : List Char → List (List Char)
  | [] => [[]]
  | c :: cs =>
    if c = sep then [] :: splitOnChar sep cs
    else
      match splitOnChar sep cs with
      | [] => [[c]]
      | g :: gs => (c :: g) :: gs

/-- One decimal digit. -/
def pyDigit (c : Char) : Option Nat :=
  if c.isDigit then some (c.toNat - 48) else none

/-- Digits of a Python `int` literal after the first one; a single `_` is
allowed between digits, as in Python. -/
def pyDigitsCore : Nat → List Char → Option Nat
  | acc, [] => some acc
  | acc, '_' :: c :: cs =>
    match pyDigit c with
    | some d => pyDigitsCore (acc * 10 + d) cs
    | none => none
  | _, ['_'] => none
  | acc, c :: cs =>
    match pyDigit c with
    | some d => pyDigitsCore (acc * 10 + d) cs
    | none => none

/-- Unsigned decimal literal: at least one digit, `_` only between digits. -/
def pyUnsigned : List Char → Option Nat
  | [] => none
  | c :: cs =>
    match pyDigit c with
    | some d => pyDigitsCore d cs
    | none => none

/-- Python `int(s)` on a string: optional surrounding whitespace, optional
sign, decimal digits (with `_` grouping).  `int("5.5")` raises, hence `none`
on fractional strings. -/
def pyStrToInt (s : String) : Option Int :=
  match (pyStrip s).toList with
  | '+' :: rest => (pyUnsigned rest).map Int.ofNat
  | '-' :: rest => (pyUnsigned rest).map fun n => -(n : Int)
  | rest => (pyUnsigned rest).map Int.ofNat

/-- Truncation toward zero of the decimal `m / 10^e`, which is what Python
`int` does on a float (`int(5.5) = 5`, `int(-5.5) = -5`). -/
def truncDecimal (m : Int) (e : Nat) : Int :=
  if 0 ≤ m then ((m.natAbs / 10 ^ e : Nat) : Int)
  else -((m.natAbs / 10 ^ e : Nat) : Int)

/-- Python `int(cell)`: identity on ints, truncation toward zero on floats,
literal parsing on strings; `int(nan)` raises `ValueError`, hence `none`. -/
def pyInt : ExcelValue → Option Int
  | .str s => pyStrToInt s
  | .int n => some n
  | .float m e => some (truncDecimal m e)
  | .nan => none

/-! ### `ipaddress` parsing (`IPv4Address`, `IPv4Network(·, strict=False)`) -/

/-- One octet of a dotted-quad, following `ipaddress._parse_octet`: nonempty,
decimal digits only, at most 3 characters, no leading zero, value ≤ 255. -/
def parseOctet (cs : List Char) : Option Nat :=
  if cs = [] then none
  else if ¬ cs.all Char.isDigit then none
  else if cs.length > 3 then none
  else if cs.length > 1 ∧ cs.head? = some '0' then none
  else
    let v := cs.foldl (fun a c => a * 10 + (c.toNat - 48)) 0
    if v > 255 then none else some v

/-- `ipaddress.IPv4Address(s)`: exactly four dot-separated octets; the result
is the 32-bit value of the address. -/
def parseIPv4Address (s : String) : Option Nat :=
  match (splitOnChar '.' s.toList).mapM parseOctet with
  | some [a, b, c, d] => some (((a * 256 + b) * 256 + c) * 256 + d)
  | _ => none

/-- The 32-bit netmask with `p` leading one bits. -/
def netmaskOfPrefix (p : Nat) : Nat := 2 ^ 32 - 2 ^ (32 - p)

/-- A prefix-length string: decimal digits only, value ≤ 32
(`ipaddress._prefix_from_prefix_string`). -/
def parsePrefixString (s : String) : Option Nat :=
  let cs := s.toList
  if cs = [] then none
  else if ¬ cs.all Char.isDigit then none
  else
    let v := cs.foldl (fun a c => a * 10 + (c.toNat - 48)) 0
    if v ≤ 32 then some v else none

/-- A dotted-quad netmask (contiguous high bits) or hostmask (contiguous low
bits), tried in that order as `ipaddress._make_netmask` does. -/
def parseNetmaskLike (s : String) : Option Nat :=
  match parseIPv4Address s with
  | none => none
  | some m =>
    match (List.range 33).find? fun p => netmaskOfPrefix p = m with
    | some p => some p
    | none => (List.range 33).find? fun p => 2 ^ (32 - p) - 1 = m

/-- A parsed IPv4 network: the (normalised) network address and the prefix
length. -/
structure IPv4Net where
  netaddr : Nat
  prefixLen : Nat
deriving DecidableEq, Repr

/-- `ipaddress.IPv4Network(s, strict=False)`: `addr`, `addr/prefixlen`,
`addr/netmask` or `addr/hostmask`; host bits are cleared (the network is
normalised).  Clearing the host bits with division equals masking with the
netmask, whose set bits are exactly the top `prefixLen` bits. -/
def parseIPv4NetworkNonStrict (s : String) : Option IPv4Net :=
  match splitOnChar '/' s.toList with
  | [a] => (parseIPv4Address (String.mk a)).map fun ip => ⟨ip, 32⟩
  | [a, p] =>
    match parseIPv4Address (String.mk a),
        (parsePrefixString (String.mk p)).orElse (fun _ => parseNetmaskLike (String.mk p)) with
    | some ip, some pl => some ⟨ip / 2 ^ (32 - pl) * 2 ^ (32 - pl), pl⟩
    | _, _ => none
  | _ => none

/-- `mx_ip in subnet` (Python `IPv4Network.__contains__`): the address masked
with the netmask equals the network address. -/
def ipInNetwork (net : IPv4Net) (a : Nat) : Bool :=
  a / 2 ^ (32 - net.prefixLen) * 2 ^ (32 - net.prefixLen) = net.netaddr

/-! ### The data frame and `validate_excel_format` -/

/-- One data row of the spreadsheet.  The five fields correspond to the five
required columns; when a required column is absent from the document the
validator never reads any row field, so the missing column's field values are
irrelevant (the schema lives in `DataFrame.columns`). -/
structure Row where
  networkName : ExcelValue
  vlanId : ExcelValue
  vlanName : ExcelValue
  subnet : ExcelValue
  mxIp : ExcelValue
deriving DecidableEq, Repr

/-- The loaded spreadsheet: its column names and its data rows. -/
structure DataFrame where
  columns : List String
  rows : List Row
deriving DecidableEq, Repr

def requiredColumns : List String :=
  ["Network Name", "VLAN ID", "VLAN Name", "Subnet", "MX IP"]

/-- Required columns absent from the document, in `requiredColumns` order. -/
def missingColumns (df : DataFrame) : List String :=
  requiredColumns.filter fun c => decide (c ∉ df.columns)

def rowPrefix (n : Nat) : String := "Row " ++ toString n ++ ": "

/-- A character allowed by the name pattern `^[a-zA-Z0-9\s.@#_-]+$`. -/
def nameCharOk (c : Char) : Bool :=
  c.isAlpha ∨ c.isDigit ∨ pyIsSpace c ∨ c = '.' ∨ c = '@' ∨ c = '#' ∨ c = '_' ∨ c = '-'

/-- The Network Name / VLAN Name check of `validate_excel_format`:
`str(cell).strip()` must be nonempty, the cell must not be NaN, and every
character must match the allowed-name pattern. -/
def nameFieldErrors (n : Nat) (field : String) (cell : ExcelValue) : List String :=
  let s := pyStrip (pyStr cell)
  if s = "" ∨ cell = .nan then [rowPrefix n ++ field ++ " is empty"]
  else if ¬ (s.toList.all nameCharOk) then
    [rowPrefix n ++ field ++ " '" ++ s ++ "' contains invalid characters"]
  else []

/-- The VLAN ID check: `int(cell)` must succeed and land in `[1, 4094]`. -/
def vlanIdErrors (n : Nat) (cell : ExcelValue) : List String :=
  match pyInt cell with
  | none => [rowPrefix n ++ "VLAN ID must be a valid integer"]
  | some v =>
    if v < 1 ∨ v > 4094 then
      [rowPrefix n ++ "VLAN ID " ++ toString v ++ " must be between 1-4094"]
    else []

/-- The Subnet and MX IP checks: the subnet must parse as CIDR (non-strict);
when it does not, the MX IP check is skipped (`continue` in the source);
otherwise the MX IP must parse as IPv4 and belong to the subnet. -/
def subnetMxErrors (n : Nat) (subnetCell mxCell : ExcelValue) : List String :=
  let ss := pyStrip (pyStr subnetCell)
  match parseIPv4NetworkNonStrict ss with
  | none => [rowPrefix n ++ "Subnet '" ++ ss ++ "' is not valid CIDR notation"]
  | some net =>
    let ms := pyStrip (pyStr mxCell)
    match parseIPv4Address ms with
    | none => [rowPrefix n ++ "MX IP '" ++ ms ++ "' is not a valid IP address"]
    | some a =>
      if ipInNetwork net a then []
      else [rowPrefix n ++ "MX IP '" ++ ms ++ "' does not belong to subnet '" ++ ss ++ "'"]

/-- All errors of one row, in source order: Network Name, VLAN ID,
VLAN Name, Subnet / MX IP. -/
def rowErrors (n : Nat) (r : Row) : List String :=
  nameFieldErrors n "Network Name" r.networkName
    ++ vlanIdErrors n r.vlanId
    ++ nameFieldErrors n "VLAN Name" r.vlanName
    ++ subnetMxErrors n r.subnet r.mxIp

/-- `validate_excel_format`: `None` data fails; a missing required column
fails with a single aggregate error; otherwise every row is checked in order
(first data row is numbered 2) and the accumulated error list decides
validity. -/
def validate_excel_format : Option DataFrame → Bool × List String
  | none => (false, ["No data found."])
  | some df =>
    if missingColumns df ≠ [] then
      (false, ["Missing required columns: " ++ String.intercalate ", " (missingColumns df)])
    else
      let errors := df.rows.enum.foldl (fun acc p => acc ++ rowErrors (p.1 + 2) p.2) []
      (decide (errors = []), errors)

/-! ### First-occurrence deduplication (`pandas.Series.unique`, dict keys) -/

/-- `uniqAux seen l`: the elements of `l` not in `seen`, first occurrences
only, in order of first appearance. -/
def uniqAux [DecidableEq α] (seen : List α) : List α → List α
  | [] => []
  | x :: xs => if x ∈ seen then uniqAux seen xs else x :: uniqAux (x :: seen) xs

/-- Distinct values in order of first appearance, the order
`pandas.Series.unique` and Python dict insertion produce. -/
def uniqFirst [DecidableEq α] (l : List α) : List α := uniqAux [] l

/-- Index of the first occurrence of `a` in `l` (length of `l` if absent). -/
def firstIdx [DecidableEq α] : List α → α → Nat
  | [], _ => 0
  | x :: xs, a => if a = x then 0 else firstIdx xs a + 1

/-! ### Live state and reconciliation (`validate_excel_data`) -/

/-- A network as returned by `getOrganizationNetworks`: the two fields the
core reads. -/
structure LiveNetwork where
  id : String
  name : String
deriving DecidableEq, Repr

/-- A VLAN as returned by `getNetworkApplianceVlans`: the two fields the
core reads. -/
structure LiveVlan where
  id : Int
  name : String
deriving DecidableEq, Repr

/-- The `network_map` lookup: `{net['name']: net['id'] for net in networks}`
is a dict comprehension, so a duplicated live name is last-write-wins. -/
def networkMapLookup (nets : List LiveNetwork) (name : String) : Option String :=
  ((nets.map fun n => (n.name, n.id)).reverse).lookup name

/-- Membership/lookup of a raw cell value in the string-keyed network map:
only a string cell can match a key. -/
def cellLookup (nets : List LiveNetwork) : ExcelValue → Option String
  | .str s => networkMapLookup nets s
  | _ => none

/-- Lookup in a Python dict built by inserting pairs in list order
(a later duplicate key overwrites an earlier one). -/
def pyDictLookup (l : List (String × β)) (k : String) : Option β :=
  l.reverse.lookup k

/-- The status strings attached to each reconciled row. -/
inductive VlanStatus where
  | existing
  | missing
  | network_missing
  | validation_error
deriving DecidableEq, Repr

/-- One element of the `vlan_validation` list.  For `existing`/`missing`
entries the source stores `str(row['VLAN ID'])` and the stripped string name;
for `network_missing`/`validation_error` entries it stores the raw cells. -/
structure VlanEntry where
  network_name : ExcelValue
  vlan_id : ExcelValue
  vlan_name : ExcelValue
  status : VlanStatus
  message : String
  current_config : Option LiveVlan
deriving DecidableEq, Repr

/-- One element of the `network_validation` list. -/
structure NetworkValEntry where
  name : ExcelValue
  id : String
  found : Bool
deriving DecidableEq, Repr

/-- The `summary` dict of `validate_excel_data`. -/
structure ReconSummary where
  networks_found : Nat
  networks_missing : Nat
  vlans_valid : Nat
  vlans_invalid : Nat
  total_networks : Nat
  total_vlans : Nat
deriving DecidableEq, Repr

/-- The full return value of `validate_excel_data`. -/
structure ValidationData where
  networks : List (String × String)
  network_validation : List NetworkValEntry
  vlan_validation : List VlanEntry
  summary : ReconSummary
deriving DecidableEq, Repr

/-- Classification of one desired row against a fetched live VLAN list:
`existing` when `str(row['VLAN ID'])` is a key of the live dict, else
`missing` (lines 320-345 of the source). -/
def classifyRow (key : ExcelValue) (vlans : List LiveVlan) (r : Row) : VlanEntry :=
  let vid := pyStr r.vlanId
  let vname := pyStrip (pyStr r.vlanName)
  match pyDictLookup (vlans.map fun v => (toString v.id, v)) vid with
  | some lv =>
    ⟨key, .str vid, .str vname, .existing,
      "VLAN " ++ vid ++ " exists (current name: '" ++ lv.name ++ "')", some lv⟩
  | none =>
    ⟨key, .str vid, .str vname, .missing,
      "VLAN " ++ vid ++ " does not exist in network", none⟩

/-- The entries contributed by one `groupby` group: `network_missing` for a
network absent from `existing_networks`, `validation_error` (with the fetch
failure detail) when fetching its VLANs fails, otherwise one
`existing`/`missing` classification per row. -/
def groupEntries (getVlans : String → Except String (List LiveVlan))
    (existing : List (String × String)) (key : ExcelValue) (grows : List Row) :
    List VlanEntry :=
  match key with
  | .str s =>
    match existing.lookup s with
    | some nid =>
      match getVlans nid with
      | .ok vlans => grows.map (classifyRow key vlans)
      | .error e =>
        grows.map fun r =>
          ⟨key, r.vlanId, r.vlanName, .validation_error,
            "Could not validate VLAN: " ++ e, none⟩
    | none =>
      grows.map fun r =>
        ⟨key, r.vlanId, r.vlanName, .network_missing,
          "Network '" ++ pyStr key ++ "' does not exist", none⟩
  | _ =>
    grows.map fun r =>
      ⟨key, r.vlanId, r.vlanName, .network_missing,
        "Network '" ++ pyStr key ++ "' does not exist", none⟩

/-- `excel_data['Network Name'].unique()`: distinct raw name cells in
first-appearance order (NaN included, once). -/
def excelNetworksOf (excel : DataFrame) : List ExcelValue :=
  uniqFirst (excel.rows.map (·.networkName))

/-- The `existing_networks` entry a name cell contributes: a string cell that
is a key of the live network map contributes its name/id pair. -/
def existingEntry (nets : List LiveNetwork) : ExcelValue → Option (String × String)
  | .str s => (networkMapLookup nets s).map fun nid => (s, nid)
  | _ => none

/-- The `existing_networks` dict: string name cells that are keys of the
live network map, with their ids, in `excelNetworksOf` order. -/
def existingOf (nets : List LiveNetwork) (excel : DataFrame) : List (String × String) :=
  (excelNetworksOf excel).filterMap (existingEntry nets)

/-- The `groupby('Network Name')` keys: distinct non-NaN name cells
(`groupby` drops NaN keys). -/
def gkeysOf (excel : DataFrame) : List ExcelValue :=
  uniqFirst ((excel.rows.map (·.networkName)).filter fun v => decide (v ≠ .nan))

/-- `validate_excel_data`.  `getNetworks` is `getOrganizationNetworks` and
`getVlans` is `getNetworkApplianceVlans`; when the former fails the outer
`except` returns the all-empty result (source lines 386-400).  The group loop
is `excel_data.groupby('Network Name')`, which drops rows whose key is NaN;
pandas sorts the group keys, but no property below depends on the relative
order of groups, so groups are processed in first-appearance order here.
The `valid_vlans` / `invalid_vlans` counters are incremented exactly once per
appended entry (`valid` on `existing`, `invalid` otherwise), so they are the
corresponding counts over the appended entries. -/
def validate_excel_data (getNetworks : String → Except String (List LiveNetwork))
    (getVlans : String → Except String (List LiveVlan))
    (orgId : String) (excel : DataFrame) : ValidationData :=
  match getNetworks orgId with
  | .error _ => ⟨[], [], [], ⟨0, 0, 0, 0, 0, 0⟩⟩
  | .ok nets =>
    let existing := existingOf nets excel
    let missingNets := (excelNetworksOf excel).filter fun v => (cellLookup nets v).isNone
    let entries := (gkeysOf excel).flatMap fun k =>
      groupEntries getVlans existing k (excel.rows.filter fun r => decide (r.networkName = k))
    let netVal := (excelNetworksOf excel).map fun v =>
      ⟨v, (cellLookup nets v).getD "", (cellLookup nets v).isSome⟩
    ⟨existing, netVal, entries,
      ⟨existing.length, missingNets.length,
        entries.countP fun e => decide (e.status = .existing),
        entries.countP fun e => decide (e.status ≠ .existing),
        (excelNetworksOf excel).length, excel.rows.length⟩⟩

/-! ### `validate_excel` -/

/-- The dict returned by `validate_excel`.  On the success path the Python
dict has no `errors` key (modelled as `[]`) and `excel_data` /
`validation_results` are set; on the two failure paths they are `None`.
The secondary `summary` dict it builds is not consumed by any claim and is
omitted. -/
structure ValidateExcelResult where
  success : Bool
  excel_data : Option DataFrame
  validation_results : Option ValidationData
  actions_needed : List String
  errors : List String
deriving DecidableEq, Repr

/-- `validate_excel`: load (the `Option DataFrame` argument models the result
of `load_from_excel`), check the format, then reconcile against the
organization; derive `actions_needed` and the overall `success` verdict
(source lines 450-474). -/
def validate_excel (getNetworks : String → Except String (List LiveNetwork))
    (getVlans : String → Except String (List LiveVlan))
    (orgId : String) : Option DataFrame → ValidateExcelResult
  | none => ⟨false, none, none, ["fix_excel_file"], ["Failed to load Excel data"]⟩
  | some df =>
    let fmt := validate_excel_format (some df)
    if fmt.1 = false then ⟨false, none, none, ["fix_excel_format"], fmt.2⟩
    else
      let vr := validate_excel_data getNetworks getVlans orgId df
      let actions :=
        (if vr.summary.networks_missing > 0 then ["create_networks"] else [])
          ++ (if (vr.vlan_validation.filter fun v => decide (v.status = .missing)) ≠ []
              then ["create_vlans"] else [])
          ++ (if (vr.vlan_validation.filter fun v => decide (v.status = .validation_error)) ≠ []
              then ["fix_validation_errors"] else [])
      let canProceed :=
        decide (vr.summary.networks_found > 0
          ∧ (vr.vlan_validation.filter fun v => decide (v.status = .validation_error)) = []
          ∧ (vr.vlan_validation.filter fun v => decide (v.status = .network_missing)) = [])
      ⟨canProceed, some df, some vr, actions, []⟩

/-! ### `create_networks` -/

/-- Is the raw cell value a key of the string-keyed dict? -/
def isKeyOf (m : List (String × String)) : ExcelValue → Bool
  | .str s => (m.lookup s).isSome
  | _ => false

/-- Value of the raw cell key in the string-keyed dict (`""` if absent;
only used behind an `isKeyOf` guard). -/
def keyVal (m : List (String × String)) : ExcelValue → String
  | .str s => (m.lookup s).getD ""
  | _ => ""

/-- `create_networks`: one creation attempt per distinct network name absent
from `existing_networks`, in first-appearance order
(`excel_data['Network Name'].unique()`).  `createNet` models
`createOrganizationNetwork` followed by `updateNetworkApplianceVlansSettings`
and returns the new network id; a failed creation is logged and skipped.
Returns the updated map and the list of attempted names. -/
def create_networks (createNet : String → Except String String)
    (excel : DataFrame) (existing : List (String × String)) :
    List (String × String) × List ExcelValue :=
  let excelNetworks := uniqFirst (excel.rows.map (·.networkName))
  let missingNets := excelNetworks.filter fun v => ¬ isKeyOf existing v
  if missingNets = [] then (existing, [])
  else
    missingNets.foldl
      (fun acc v =>
        match createNet (pyStr v) with
        | .ok nid => (acc.1 ++ [(pyStr v, nid)], acc.2 ++ [v])
        | .error _ => (acc.1, acc.2 ++ [v]))
      (existing, [])

/-! ### `create_vlans` -/

/-- The tally returned by `create_vlans`. -/
structure VlanTally where
  created : Nat
  failed : Nat
  total : Nat
deriving DecidableEq, Repr

/-- The body of the per-VLAN loop of `create_vlans`: find the Excel row whose
Network Name equals the group key and whose `str` VLAN ID equals the entry's
(`astype(str)` on the column is `str` per cell); no matching row, or a failed
`createNetworkApplianceVlan` call, counts as failed, a successful call as
created. -/
def createVlanStep (createVlan : String → String → String → String → String → Except String Unit)
    (excel : DataFrame) (key : ExcelValue) (nid : String)
    (acc : Nat × Nat) (vi : VlanEntry) : Nat × Nat :=
  match excel.rows.filter
      (fun r => decide (r.networkName = key) && decide (pyStr r.vlanId = pyStr vi.vlan_id)) with
  | [] => (acc.1, acc.2 + 1)
  | r :: _ =>
    match createVlan nid (pyStr r.vlanId) (pyStrip (pyStr r.vlanName))
        (pyStrip (pyStr r.subnet)) (pyStrip (pyStr r.mxIp)) with
    | .ok _ => (acc.1 + 1, acc.2)
    | .error _ => (acc.1, acc.2 + 1)

/-- One iteration of the per-network loop of `create_vlans`: a group whose
network is absent from `network_mapping` adds its whole size to the failed
count; otherwise each of its entries is attempted. -/
def createVlansGroupStep
    (createVlan : String → String → String → String → String → Except String Unit)
    (excel : DataFrame) (mapping : List (String × String))
    (toCreate : List VlanEntry) (acc : Nat × Nat) (k : ExcelValue) : Nat × Nat :=
  let group := toCreate.filter fun v => decide (v.network_name = k)
  if isKeyOf mapping k then
    group.foldl (createVlanStep createVlan excel k (keyVal mapping k)) acc
  else (acc.1, acc.2 + group.length)

/-- `create_vlans`: the entries with status `missing` are grouped by network
name (a plain dict, so keys in first-appearance order, nothing dropped); a
group whose network is not in `network_mapping` fails wholesale, otherwise
each entry is attempted individually.  Returns
`{created, failed, total = len(vlans_to_create)}`. -/
def create_vlans (createVlan : String → String → String → String → String → Except String Unit)
    (excel : DataFrame) (mapping : List (String × String))
    (validation : List VlanEntry) : VlanTally :=
  let toCreate := validation.filter fun v => decide (v.status = .missing)
  if toCreate = [] then ⟨0, 0, 0⟩
  else
    let keys := uniqFirst (toCreate.map (·.network_name))
    let cf := keys.foldl (createVlansGroupStep createVlan excel mapping toCreate) (0, 0)
    ⟨cf.1, cf.2, toCreate.length⟩

/-! ### `apply_excel_data` -/

/-- The body of the per-VLAN update loop of `apply_excel_data`: everything in
the `try` block, including `int(row['VLAN ID'])`, counts toward
`error_count` on failure and `success_count` on a successful
`updateNetworkApplianceVlan` call. -/
def applyVlanStep (updateVlan : String → String → String → String → String → Except String Unit)
    (nid : String) (acc : Nat × Nat) (r : Row) : Nat × Nat :=
  match pyInt r.vlanId with
  | none => (acc.1, acc.2 + 1)
  | some vid =>
    match updateVlan nid (toString vid) (pyStrip (pyStr r.vlanName))
        (pyStrip (pyStr r.subnet)) (pyStrip (pyStr r.mxIp)) with
    | .ok _ => (acc.1 + 1, acc.2)
    | .error _ => (acc.1, acc.2 + 1)

/-- `apply_excel_data`: with no existing networks return `False` immediately;
otherwise update every row of every existing network's group, counting
per-row successes and failures.  Returns
`(success_count, error_count, returned_bool)` where the Python function
returns only the bool `error_count == 0`. -/
def apply_excel_data (updateVlan : String → String → String → String → String → Except String Unit)
    (excel : DataFrame) (existing : List (String × String)) : Nat × Nat × Bool :=
  if existing = [] then (0, 0, false)
  else
    let gkeys := uniqFirst ((excel.rows.map (·.networkName)).filter fun v => decide (v ≠ .nan))
    let se := gkeys.foldl
      (fun acc k =>
        if isKeyOf existing k then
          (excel.rows.filter fun r => decide (r.networkName = k)).foldl
            (applyVlanStep updateVlan (keyVal existing k)) acc
        else acc)
      (0, 0)
    (se.1, se.2, decide (se.2 = 0))

/-! ### The `main` command branches (exit status) -/

/-- The `apply-from-excel` branch of `main` (source lines 787-810): exit 1 on
the four validation-failure actions, otherwise run `apply_excel_data`,
discard its return value, print a success banner and exit 0. -/
def applyFromExcelExit (getNetworks : String → Except String (List LiveNetwork))
    (getVlans : String → Except String (List LiveVlan))
    (updateVlan : String → String → String → String → String → Except String Unit)
    (orgId : String) (df : Option DataFrame) : Nat :=
  let v := validate_excel getNetworks getVlans orgId df
  if v.success = false ∧ "fix_excel_format" ∈ v.actions_needed then 1
  else if v.success = false ∧ "fix_excel_file" ∈ v.actions_needed then 1
  else if v.success = false ∧ "create_networks" ∈ v.actions_needed then 1
  else if v.success = false ∧ "fix_validation_errors" ∈ v.actions_needed then 1
  else
    let _ := apply_excel_data updateVlan (v.excel_data.getD ⟨[], []⟩)
      ((v.validation_results.map (·.networks)).getD [])
    0

/-- The `create-vlans` branch of `main` (source lines 850-867): exit 1 only
on format/load failure, otherwise run `create_vlans`, discard its tally,
print a success banner and exit 0. -/
def createVlansExit (getNetworks : String → Except String (List LiveNetwork))
    (getVlans : String → Except String (List LiveVlan))
    (createVlan : String → String → String → String → String → Except String Unit)
    (orgId : String) (df : Option DataFrame) : Nat :=
  let v := validate_excel getNetworks getVlans orgId df
  if v.success = false ∧ "fix_excel_format" ∈ v.actions_needed then 1
  else if v.success = false ∧ "fix_excel_file" ∈ v.actions_needed then 1
  else
    let _ := create_vlans createVlan (v.excel_data.getD ⟨[], []⟩)
      ((v.validation_results.map (·.networks)).getD [])
      ((v.validation_results.map (·.vlan_validation)).getD [])
    0


/-! ### Concrete fixtures used by the witnesses and counterexamples -/

/-- One well-formed desired row: network `HQ`, VLAN 10. -/
def dfHQ : DataFrame :=
  ⟨["Network Name", "VLAN ID", "VLAN Name", "Subnet", "MX IP"],
    [⟨.str "HQ", .int 10, .str "Data", .str "10.0.0.0/24", .str "10.0.0.1"⟩]⟩

/-- An organization whose only live network is `HQ`. -/
def getNetsHQ : String → Except String (List LiveNetwork) :=
  fun _ => .ok [⟨"N1", "HQ"⟩]

/-- Live VLAN fetch: `HQ` already has VLAN 10. -/
def getVlansHas10 : String → Except String (List LiveVlan) :=
  fun _ => .ok [⟨10, "Data"⟩]

/-- Live VLAN fetch: the network has no VLANs yet. -/
def getVlansNone : String → Except String (List LiveVlan) :=
  fun _ => .ok []

/-- A VLAN create/update call that always fails. -/
def apiAlwaysFail : String → String → String → String → String → Except String Unit :=
  fun _ _ _ _ _ => .error "500 server error"

/-- The `missing` validation entry the reconciler produces for `dfHQ` when
the live network has no VLANs. -/
def missingEntryHQ : VlanEntry :=
  ⟨.str "HQ", .str "10", .str "Data", .missing,
    "VLAN 10 does not exist in network", none⟩

/-- A row whose VLAN ID cell is the float `5.5`. -/
def dfFloatVlan : DataFrame :=
  ⟨["Network Name", "VLAN ID", "VLAN Name", "Subnet", "MX IP"],
    [⟨.str "A", .float 55 1, .str "B", .str "10.0.0.0/24", .str "10.0.0.1"⟩]⟩

/-- A row whose Subnet and MX IP cells are both unparsable. -/
def dfBadPair : DataFrame :=
  ⟨["Network Name", "VLAN ID", "VLAN Name", "Subnet", "MX IP"],
    [⟨.str "A", .int 1, .str "B", .str "badsubnet", .str "alsobad"⟩]⟩

/-- A row whose Network Name cell is NaN (an empty spreadsheet cell). -/
def dfNanName : DataFrame :=
  ⟨["Network Name", "VLAN ID", "VLAN Name", "Subnet", "MX IP"],
    [⟨.nan, .int 10, .str "Data", .str "10.0.0.0/24", .str "10.0.0.1"⟩]⟩

/-- A document lacking the `MX IP` column. -/
def dfNoMxColumn : DataFrame :=
  ⟨["Network Name", "VLAN ID", "VLAN Name", "Subnet"],
    [⟨.str "HQ", .int 10, .str "Data", .str "10.0.0.0/24", .str "10.0.0.1"⟩]⟩

/-- Two desired rows in two different networks, `AA` and `BB`. -/
def dfTwoNets : DataFrame :=
  ⟨["Network Name", "VLAN ID", "VLAN Name", "Subnet", "MX IP"],
    [⟨.str "AA", .int 10, .str "Data", .str "10.0.0.0/24", .str "10.0.0.1"⟩,
      ⟨.str "BB", .int 20, .str "Voice", .str "10.0.1.0/24", .str "10.0.1.1"⟩]⟩

/-- An organization with live networks `AA` and `BB`. -/
def getNetsAB : String → Except String (List LiveNetwork) :=
  fun _ => .ok [⟨"NA", "AA"⟩, ⟨"NB", "BB"⟩]

/-- Live VLAN fetch that fails for network `NA` and succeeds for `NB`. -/
def getVlansFailA : String → Except String (List LiveVlan) :=
  fun nid => if nid = "NA" then .error "read timeout" else .ok [⟨20, "Voice"⟩]

/-! ### Helper lemmas about first-occurrence deduplication -/

theorem mem_uniqAux [DecidableEq α] {a : α} :
    ∀ (l seen : List α), a ∈ uniqAux seen l ↔ a ∈ l ∧ a ∉ seen := by
  intro l
  induction l with
  | nil => intro seen; simp [uniqAux]
  | cons x xs ih =>
    intro seen
    by_cases hx : x ∈ seen
    · rw [uniqAux, if_pos hx, ih seen]
      constructor
      · exact fun ⟨h1, h2⟩ => ⟨List.mem_cons_of_mem x h1, h2⟩
      · rintro ⟨hmem, h2⟩
        rcases List.mem_cons.1 hmem with rfl | h1
        · exact absurd hx h2
        · exact ⟨h1, h2⟩
    · rw [uniqAux, if_neg hx]
      constructor
      · intro h
        rcases List.mem_cons.1 h with rfl | h
        · exact ⟨List.mem_cons_self _ _, hx⟩
        · obtain ⟨h1, h2⟩ := (ih (x :: seen)).1 h
          exact ⟨List.mem_cons_of_mem x h1, fun hs => h2 (List.mem_cons_of_mem x hs)⟩
      · rintro ⟨hmem, hns⟩
        rcases List.mem_cons.1 hmem with rfl | h1
        · exact List.mem_cons_self _ _
        · by_cases hax : a = x
          · exact hax ▸ List.mem_cons_self _ _
          · refine List.mem_cons_of_mem x ((ih (x :: seen)).2 ⟨h1, fun hs => ?_⟩)
            rcases List.mem_cons.1 hs with h | h
            · exact hax h
            · exact hns h

theorem nodup_uniqAux [DecidableEq α] :
    ∀ (l seen : List α), (uniqAux seen l).Nodup := by
  intro l
  induction l with
  | nil => intro seen; simp [uniqAux]
  | cons x xs ih =>
    intro seen
    by_cases hx : x ∈ seen
    · simpa [uniqAux, if_pos hx] using ih seen
    · rw [uniqAux, if_neg hx]
      refine List.nodup_cons.2 ⟨?_, ih (x :: seen)⟩
      intro hmem
      exact ((mem_uniqAux xs (x :: seen)).1 hmem).2 (List.mem_cons_self x seen)

theorem mem_uniqFirst [DecidableEq α] {a : α} (l : List α) :
    a ∈ uniqFirst l ↔ a ∈ l := by
  simp [uniqFirst, mem_uniqAux]

theorem nodup_uniqFirst [DecidableEq α] (l : List α) : (uniqFirst l).Nodup :=
  nodup_uniqAux l []

theorem firstIdx_cons [DecidableEq α] (x : α) (xs : List α) (a : α) :
    firstIdx (x :: xs) a = if a = x then 0 else firstIdx xs a + 1 := rfl

theorem uniqAux_pairwise_firstIdx [DecidableEq α] :
    ∀ (l seen : List α),
      (uniqAux seen l).Pairwise fun a b => firstIdx l a < firstIdx l b := by
  intro l
  induction l with
  | nil => intro seen; simp [uniqAux]
  | cons x xs ih =>
    intro seen
    by_cases hx : x ∈ seen
    · rw [uniqAux, if_pos hx]
      refine (ih seen).imp_of_mem ?_
      intro a b ha hb hlt
      have hax : a ≠ x := fun h => ((mem_uniqAux xs seen).1 ha).2 (h ▸ hx)
      have hbx : b ≠ x := fun h => ((mem_uniqAux xs seen).1 hb).2 (h ▸ hx)
      simpa [firstIdx_cons, hax, hbx] using hlt
    · rw [uniqAux, if_neg hx]
      refine List.Pairwise.cons ?_ ((ih (x :: seen)).imp_of_mem ?_)
      · intro b hb
        have hbx : b ≠ x := by
          intro h
          exact ((mem_uniqAux xs (x :: seen)).1 hb).2 (h ▸ List.mem_cons_self x seen)
        simp [firstIdx_cons, hbx]
      · intro a b ha hb hlt
        have hax : a ≠ x := by
          intro h
          exact ((mem_uniqAux xs (x :: seen)).1 ha).2 (h ▸ List.mem_cons_self x seen)
        have hbx : b ≠ x := by
          intro h
          exact ((mem_uniqAux xs (x :: seen)).1 hb).2 (h ▸ List.mem_cons_self x seen)
        simpa [firstIdx_cons, hax, hbx] using hlt

theorem uniqFirst_pairwise_firstIdx [DecidableEq α] (l : List α) :
    (uniqFirst l).Pairwise fun a b => firstIdx l a < firstIdx l b :=
  uniqAux_pairwise_firstIdx l []

/-! ### Helper lemmas about counting and folding -/

theorem countP_or_disjoint (p q : α → Bool) :
    ∀ l : List α, (∀ a ∈ l, ¬(p a = true ∧ q a = true)) →
      l.countP (fun a => p a || q a) = l.countP p + l.countP q := by
  intro l
  induction l with
  | nil => simp
  | cons x xs ih =>
    intro h
    have hx := h x (List.mem_cons_self x xs)
    have hxs := fun a ha => h a (List.mem_cons_of_mem x ha)
    simp only [List.countP_cons, ih hxs]
    cases hp : p x <;> cases hq : q x <;> simp [hp, hq] at hx ⊢ <;> omega

theorem countP_key_sum [DecidableEq κ] (f : α → κ) :
    ∀ keys : List κ, keys.Nodup → ∀ l : List α,
      ((keys.map fun k => l.countP fun a => decide (f a = k)).sum)
        = l.countP fun a => decide (f a ∈ keys) := by
  intro keys
  induction keys with
  | nil => intro _ l; simp
  | cons k ks ih =>
    intro hnd l
    have hk : k ∉ ks := (List.nodup_cons.1 hnd).1
    have hks : ks.Nodup := (List.nodup_cons.1 hnd).2
    have hsplit : (l.countP fun a => decide (f a ∈ k :: ks))
        = l.countP ((fun a => decide (f a = k) || decide (f a ∈ ks))) := by
      apply List.countP_congr
      intro a _
      by_cases h1 : f a = k <;> by_cases h2 : f a ∈ ks <;> simp [h1, h2]
    rw [List.map_cons, List.sum_cons, ih hks l, hsplit,
      countP_or_disjoint (fun a => decide (f a = k)) (fun a => decide (f a ∈ ks))]
    intro a _ hcontra
    have h1 : f a = k := by simpa using hcontra.1
    have h2 : f a ∈ ks := by simpa using hcontra.2
    exact hk (h1 ▸ h2)

theorem foldl_pair_sum {β : Type} (step : Nat × Nat → β → Nat × Nat) (g : β → Nat)
    (h : ∀ acc b, (step acc b).1 + (step acc b).2 = acc.1 + acc.2 + g b) :
    ∀ (l : List β) (acc : Nat × Nat),
      (l.foldl step acc).1 + (l.foldl step acc).2 = acc.1 + acc.2 + (l.map g).sum := by
  intro l
  induction l with
  | nil => intro acc; simp
  | cons b bs ih =>
    intro acc
    simp only [List.foldl_cons, List.map_cons, List.sum_cons, ih (step acc b), h acc b]
    omega

theorem foldl_append_eq {β : Type} (g : α → List β) :
    ∀ (l : List α) (init : List β),
      l.foldl (fun acc x => acc ++ g x) init = init ++ l.flatMap g := by
  intro l
  induction l with
  | nil => intro init; simp
  | cons x xs ih => intro init; simp [ih, List.flatMap_cons]

theorem foldl_snd_append {σ : Type} (step : σ × List α → α → σ × List α)
    (h : ∀ acc v, (step acc v).2 = acc.2 ++ [v]) :
    ∀ (l : List α) (acc : σ × List α), (l.foldl step acc).2 = acc.2 ++ l := by
  intro l
  induction l with
  | nil => intro acc; simp
  | cons v vs ih =>
    intro acc
    rw [List.foldl_cons, ih (step acc v), h acc v]
    simp

theorem sum_map_one {β : Type} (l : List β) : (l.map fun _ => 1).sum = l.length := by
  induction l with
  | nil => rfl
  | cons b bs ih => simp [ih]; omega

/-! ### Helper lemmas about parsed networks -/

theorem parse_net_normalised {s : String} {net : IPv4Net}
    (h : parseIPv4NetworkNonStrict s = some net) :
    net.netaddr % 2 ^ (32 - net.prefixLen) = 0 := by
  unfold parseIPv4NetworkNonStrict at h
  split at h
  · rw [Option.map_eq_some'] at h
    obtain ⟨ip, _, hf⟩ := h
    cases hf
    exact Nat.mod_one ip
  · split at h
    · cases h
      simp [Nat.mul_mod_left]
    · exact absurd h (by simp)
  · exact absurd h (by simp)

theorem ipInNetwork_iff_range (net : IPv4Net) (a : Nat)
    (hnorm : net.netaddr % 2 ^ (32 - net.prefixLen) = 0) :
    ipInNetwork net a = true
      ↔ net.netaddr ≤ a ∧ a ≤ net.netaddr + (2 ^ (32 - net.prefixLen) - 1) := by
  have hpos : 0 < 2 ^ (32 - net.prefixLen) := Nat.pos_pow_of_pos _ (by norm_num)
  rw [ipInNetwork, decide_eq_true_eq]
  constructor
  · intro heq
    have hdm := Nat.div_add_mod a (2 ^ (32 - net.prefixLen))
    have hml : a % 2 ^ (32 - net.prefixLen) < 2 ^ (32 - net.prefixLen) := Nat.mod_lt a hpos
    rw [Nat.mul_comm] at heq
    omega
  · rintro ⟨hlo, hhi⟩
    have hdvd : 2 ^ (32 - net.prefixLen) ∣ net.netaddr := Nat.dvd_of_mod_eq_zero hnorm
    have hcancel : net.netaddr / 2 ^ (32 - net.prefixLen) * 2 ^ (32 - net.prefixLen)
        = net.netaddr := Nat.div_mul_cancel hdvd
    have hdiv : a / 2 ^ (32 - net.prefixLen) = net.netaddr / 2 ^ (32 - net.prefixLen) := by
      apply Nat.div_eq_of_lt_le
      · rw [hcancel]; exact hlo
      · rw [Nat.add_mul, one_mul, hcancel]; omega
    rw [hdiv, hcancel]

/-! ### Helper lemmas about the reconciliation loop -/

theorem groupEntries_length (gV : String → Except String (List LiveVlan))
    (ex : List (String × String)) (k : ExcelValue) (grows : List Row) :
    (groupEntries gV ex k grows).length = grows.length := by
  unfold groupEntries
  split
  · split
    · split <;> simp
    · simp
  · simp

theorem classifyRow_name (key : ExcelValue) (vlans : List LiveVlan) (r : Row) :
    (classifyRow key vlans r).network_name = key := by
  simp only [classifyRow]
  split <;> rfl

theorem groupEntries_name (gV : String → Except String (List LiveVlan))
    (ex : List (String × String)) (k : ExcelValue) (grows : List Row) :
    ∀ e ∈ groupEntries gV ex k grows, e.network_name = k := by
  unfold groupEntries
  split
  · split
    · split
      · intro e he
        obtain ⟨r, _, rfl⟩ := List.mem_map.1 he
        exact classifyRow_name _ _ _
      · intro e he
        obtain ⟨r, _, rfl⟩ := List.mem_map.1 he
        rfl
    · intro e he
      obtain ⟨r, _, rfl⟩ := List.mem_map.1 he
      rfl
  · intro e he
    obtain ⟨r, _, rfl⟩ := List.mem_map.1 he
    rfl

theorem groupEntries_nil (gV : String → Except String (List LiveVlan))
    (ex : List (String × String)) (k : ExcelValue) :
    groupEntries gV ex k [] = [] := by
  unfold groupEntries
  split
  · split
    · split <;> simp
    · simp
  · simp

theorem flatMap_filter_single [DecidableEq κ] {β : Type} (nm : β → κ) (G : κ → List β)
    (hG : ∀ k, ∀ e ∈ G k, nm e = k) :
    ∀ keys : List κ, keys.Nodup → ∀ k0 : κ,
      (keys.flatMap G).filter (fun e => decide (nm e = k0))
        = if k0 ∈ keys then G k0 else [] := by
  intro keys
  induction keys with
  | nil => intro _ k0; simp
  | cons k ks ih =>
    intro hnd k0
    have hk : k ∉ ks := (List.nodup_cons.1 hnd).1
    have hks : ks.Nodup := (List.nodup_cons.1 hnd).2
    rw [List.flatMap_cons, List.filter_append, ih hks k0]
    by_cases hkk : k = k0
    · subst hkk
      have h1 : (G k).filter (fun e => decide (nm e = k)) = G k := by
        rw [List.filter_eq_self]
        intro e he
        simp [hG k e he]
      rw [h1, if_neg hk, if_pos (List.mem_cons_self k ks)]
      simp
    · have h1 : (G k).filter (fun e => decide (nm e = k0)) = [] := by
        rw [List.filter_eq_nil_iff]
        intro e he
        simp [hG k e he, hkk]
      rw [h1, List.nil_append]
      by_cases hmem : k0 ∈ ks
      · rw [if_pos hmem, if_pos (List.mem_cons_of_mem k hmem)]
      · have hnotin : k0 ∉ k :: ks := by
          intro hc
          rcases List.mem_cons.1 hc with h | h
          · exact hkk h.symm
          · exact hmem h
        rw [if_neg hmem, if_neg hnotin]

theorem existing_lookup (nets : List LiveNetwork) (A : String) (idA : String) :
    ∀ l : List ExcelValue, ExcelValue.str A ∈ l →
      networkMapLookup nets A = some idA →
      (l.filterMap (existingEntry nets)).lookup A = some idA := by
  intro l
  induction l with
  | nil => intro h; simp at h
  | cons v vs ih =>
    intro hmem hid
    cases v with
    | str s =>
      by_cases hAs : A = s
      · subst hAs
        have hf : existingEntry nets (ExcelValue.str A) = some (A, idA) := by
          simp [existingEntry, hid]
        rw [List.filterMap_cons_some hf]
        simp [List.lookup_cons]
      · cases hs : networkMapLookup nets s with
        | none =>
          have hf : existingEntry nets (ExcelValue.str s) = none := by
            simp [existingEntry, hs]
          rw [List.filterMap_cons_none hf]
          apply ih ?_ hid
          rcases List.mem_cons.1 hmem with h | h
          · exact absurd (ExcelValue.str.inj h) hAs
          · exact h
        | some nid =>
          have hf : existingEntry nets (ExcelValue.str s) = some (s, nid) := by
            simp [existingEntry, hs]
          rw [List.filterMap_cons_some hf]
          simp only [List.lookup_cons, beq_false_of_ne hAs]
          apply ih ?_ hid
          rcases List.mem_cons.1 hmem with h | h
          · exact absurd (ExcelValue.str.inj h) hAs
          · exact h
    | int n =>
      rw [List.filterMap_cons_none rfl]
      apply ih ?_ hid
      rcases List.mem_cons.1 hmem with h | h
      · exact absurd h (by simp)
      · exact h
    | float m e =>
      rw [List.filterMap_cons_none rfl]
      apply ih ?_ hid
      rcases List.mem_cons.1 hmem with h | h
      · exact absurd h (by simp)
      · exact h
    | nan =>
      rw [List.filterMap_cons_none rfl]
      apply ih ?_ hid
      rcases List.mem_cons.1 hmem with h | h
      · exact absurd h (by simp)
      · exact h

/-! ### Claim theorems -/

/-- Claim C7: for every input table in which at least one of the five
required columns is absent, `validate_excel_format` returns invalid with
exactly one aggregate error naming the missing columns, and performs no
per-row checks (the result is independent of the rows). -/
theorem claim_C7_missing_columns (df : DataFrame) (h : missingColumns df ≠ []) :
    validate_excel_format (some df)
        = (false, ["Missing required columns: "
            ++ String.intercalate ", " (missingColumns df)])
      ∧ ∀ rows' : List Row,
          validate_excel_format (some ⟨df.columns, rows'⟩)
            = validate_excel_format (some df) := by
  have h2 : ∀ rows' : List Row, missingColumns ⟨df.columns, rows'⟩ = missingColumns df :=
    fun _ => rfl
  constructor
  · rw [validate_excel_format, if_pos h]
  · intro rows'
    rw [validate_excel_format, validate_excel_format, if_pos (h2 rows' ▸ h), if_pos h, h2 rows']

/-- Witness for C7 at a document lacking the `MX IP` column. -/
theorem claim_C7_missing_columns_witness :
    missingColumns dfNoMxColumn ≠ []
      ∧ validate_excel_format (some dfNoMxColumn)
          = (false, ["Missing required columns: MX IP"]) := by
  refine ⟨by decide, ?_⟩
  rw [(claim_C7_missing_columns dfNoMxColumn (by decide)).1]
  decide

/-- Claim C6 counterexample: in a single row both the Subnet and the MX IP
cells are invalid, yet only the subnet error is reported — the `continue`
after a failed subnet parse suppresses the (also applicable) invalid-MX-IP
error of the same row, so field checks inside a row are not all independent. -/
theorem claim_C6_counterexample :
    validate_excel_format (some dfBadPair)
        = (false, ["Row 2: Subnet 'badsubnet' is not valid CIDR notation"])
      ∧ parseIPv4Address "alsobad" = none := by
  decide

/-- Claim C6 (amended): when the five required columns are present every row
is examined, the full error list is the concatenation of the per-row error
lists (an error in one row never suppresses errors in another row; within a
row, checks are independent except that a failed subnet parse skips the MX IP
check), and the validity flag is true exactly when the accumulated error list
is empty. -/
theorem claim_C6_row_independence (df : DataFrame) (h : missingColumns df = []) :
    (validate_excel_format (some df)).2
        = df.rows.enum.flatMap (fun p => rowErrors (p.1 + 2) p.2)
      ∧ ((validate_excel_format (some df)).1 = true
          ↔ (validate_excel_format (some df)).2 = []) := by
  have hne : ¬ missingColumns df ≠ [] := by simp [h]
  have hfold := foldl_append_eq (fun p : Nat × Row => rowErrors (p.1 + 2) p.2) df.rows.enum []
  constructor
  · rw [validate_excel_format, if_neg hne]
    simpa using hfold
  · rw [validate_excel_format, if_neg hne]
    simp

/-- Witness for the amended C6 at a well-formed one-row document. -/
theorem claim_C6_row_independence_witness :
    missingColumns dfHQ = []
      ∧ ((validate_excel_format (some dfHQ)).2
            = dfHQ.rows.enum.flatMap (fun p => rowErrors (p.1 + 2) p.2)
          ∧ ((validate_excel_format (some dfHQ)).1 = true
              ↔ (validate_excel_format (some dfHQ)).2 = [])) :=
  ⟨by decide, claim_C6_row_independence dfHQ (by decide)⟩

/-- Claim C3 counterexample: the float cell `5.5` is fractional, yet the
VLAN ID check accepts it — Python `int()` truncates a float toward zero, so
the document validates with no errors. -/
theorem claim_C3_counterexample :
    validate_excel_format (some dfFloatVlan) = (true, [])
      ∧ vlanIdErrors 2 (.float 55 1) = []
      ∧ pyInt (.float 55 1) = some 5
      ∧ (55 : Int) % 10 ≠ 0 := by
  decide

/-- Claim C3 (amended): the VLAN ID check accepts a cell exactly when Python
`int()` conversion succeeds with a value in `[1, 4094]`; it rejects the
strings `"0"`, `"4095"`, `"abc"` and `"5.5"`, accepts `"1"` and `"4094"`,
and accepts a fractional float cell by truncating it toward zero. -/
theorem claim_C3_vlan_id_range :
    (∀ (n : Nat) (v : ExcelValue),
        vlanIdErrors n v = [] ↔ ∃ k : Int, pyInt v = some k ∧ 1 ≤ k ∧ k ≤ 4094)
      ∧ vlanIdErrors 2 (.str "0") ≠ [] ∧ vlanIdErrors 2 (.str "4095") ≠ []
      ∧ vlanIdErrors 2 (.str "abc") ≠ [] ∧ vlanIdErrors 2 (.str "5.5") ≠ []
      ∧ vlanIdErrors 2 (.str "1") = [] ∧ vlanIdErrors 2 (.str "4094") = []
      ∧ pyInt (.str "5.5") = none ∧ pyInt (.float 55 1) = some 5
      ∧ vlanIdErrors 2 (.float 55 1) = [] := by
  refine ⟨?_, by decide, by decide, by decide, by decide, by decide, by decide,
    by decide, by decide, by decide⟩
  intro n v
  unfold vlanIdErrors
  cases hp : pyInt v with
  | none => simp
  | some k =>
    dsimp only
    by_cases hk : k < 1 ∨ k > 4094
    · rw [if_pos hk]
      constructor
      · intro hcon; exact absurd hcon (by simp)
      · rintro ⟨k', hk', h1, h2⟩
        obtain rfl : k = k' := Option.some.inj hk'
        omega
    · rw [if_neg hk]
      simp only [true_iff]
      exact ⟨k, rfl, by omega, by omega⟩

/-- Claim C2: for a row whose subnet parses as CIDR (non-strict) and whose
gateway parses as IPv4, the membership error is recorded iff the address
lies outside the normalised network's range `[network, broadcast]`; when the
subnet fails to parse, the gateway is not examined at all; and the boundary
addresses of a /24, /31 and /32 are members (no error). -/
theorem claim_C2_gateway_membership :
    (∀ (n : Nat) (sc mc : ExcelValue) (net : IPv4Net) (a : Nat),
        parseIPv4NetworkNonStrict (pyStrip (pyStr sc)) = some net →
        parseIPv4Address (pyStrip (pyStr mc)) = some a →
        subnetMxErrors n sc mc
          = if net.netaddr ≤ a ∧ a ≤ net.netaddr + (2 ^ (32 - net.prefixLen) - 1)
            then []
            else [rowPrefix n ++ "MX IP '" ++ pyStrip (pyStr mc)
                ++ "' does not belong to subnet '" ++ pyStrip (pyStr sc) ++ "'"])
      ∧ (∀ (n : Nat) (sc mc : ExcelValue),
          parseIPv4NetworkNonStrict (pyStrip (pyStr sc)) = none →
          subnetMxErrors n sc mc
            = [rowPrefix n ++ "Subnet '" ++ pyStrip (pyStr sc)
                ++ "' is not valid CIDR notation"])
      ∧ subnetMxErrors 2 (.str "10.0.0.0/24") (.str "10.0.0.0") = []
      ∧ subnetMxErrors 2 (.str "10.0.0.0/24") (.str "10.0.0.255") = []
      ∧ subnetMxErrors 2 (.str "10.0.0.0/24") (.str "10.0.1.0")
          = ["Row 2: MX IP '10.0.1.0' does not belong to subnet '10.0.0.0/24'"]
      ∧ subnetMxErrors 2 (.str "10.0.0.0/31") (.str "10.0.0.0") = []
      ∧ subnetMxErrors 2 (.str "10.0.0.0/31") (.str "10.0.0.1") = []
      ∧ subnetMxErrors 2 (.str "10.0.0.0/31") (.str "10.0.0.2")
          = ["Row 2: MX IP '10.0.0.2' does not belong to subnet '10.0.0.0/31'"]
      ∧ subnetMxErrors 2 (.str "10.0.0.5/32") (.str "10.0.0.5") = []
      ∧ subnetMxErrors 2 (.str "10.0.0.5/32") (.str "10.0.0.4")
          = ["Row 2: MX IP '10.0.0.4' does not belong to subnet '10.0.0.5/32'"] := by
  refine ⟨?_, ?_, by decide, by decide, by decide, by decide, by decide, by decide,
    by decide, by decide⟩
  · intro n sc mc net a hs hm
    simp only [subnetMxErrors]
    rw [hs]
    dsimp only
    rw [hm]
    dsimp only
    have hrange := ipInNetwork_iff_range net a (parse_net_normalised hs)
    by_cases hin : ipInNetwork net a = true
    · rw [if_pos hin, if_pos (hrange.1 hin)]
    · rw [if_neg hin, if_neg fun hr => hin (hrange.2 hr)]
  · intro n sc mc hs
    simp only [subnetMxErrors]
    rw [hs]

/-- Witness for C2 at concrete inputs: the broadcast address of
`10.0.0.0/24` is a member (no error), and an unparsable subnet yields only
the subnet error. -/
theorem claim_C2_gateway_membership_witness :
    parseIPv4NetworkNonStrict (pyStrip (pyStr (ExcelValue.str "10.0.0.0/24")))
        = some ⟨167772160, 24⟩
      ∧ parseIPv4Address (pyStrip (pyStr (ExcelValue.str "10.0.0.255"))) = some 167772415
      ∧ subnetMxErrors 2 (.str "10.0.0.0/24") (.str "10.0.0.255") = []
      ∧ parseIPv4NetworkNonStrict (pyStrip (pyStr (ExcelValue.str "bad"))) = none
      ∧ subnetMxErrors 2 (.str "bad") (.str "alsobad")
          = ["Row 2: Subnet 'bad' is not valid CIDR notation"] := by
  refine ⟨by decide, by decide, ?_, by decide, ?_⟩
  · rw [claim_C2_gateway_membership.1 2 (.str "10.0.0.0/24") (.str "10.0.0.255")
      ⟨167772160, 24⟩ 167772415 (by decide) (by decide)]
    decide
  · have h := claim_C2_gateway_membership.2.1 2 (ExcelValue.str "bad")
      (ExcelValue.str "alsobad") (by decide)
    rw [h]
    decide

/-- The attempted-creation log of `create_networks` is exactly the list of
distinct names absent from the existing map, in first-appearance order. -/
theorem create_networks_attempts (createNet : String → Except String String)
    (excel : DataFrame) (ex : List (String × String)) :
    (create_networks createNet excel ex).2
      = (uniqFirst (excel.rows.map (·.networkName))).filter
          fun v => ¬ isKeyOf ex v := by
  simp only [create_networks]
  by_cases h : ((uniqFirst (excel.rows.map (·.networkName))).filter
      fun v => ¬ isKeyOf ex v) = []
  · rw [if_pos h, h]
  · rw [if_neg h]
    have hstep : ∀ (acc : List (String × String) × List ExcelValue) (v : ExcelValue),
        ((match createNet (pyStr v) with
          | .ok nid => (acc.1 ++ [(pyStr v, nid)], acc.2 ++ [v])
          | .error _ => (acc.1, acc.2 ++ [v])) :
            List (String × String) × List ExcelValue).2 = acc.2 ++ [v] := by
      intro acc v
      cases createNet (pyStr v) <;> rfl
    rw [foldl_snd_append _ hstep]
    simp

/-- Claim C8: `create_networks` attempts exactly one creation per distinct
network name absent from the existing-network map (no duplicates, and a name
is attempted iff it occurs in the rows and is not an existing key), and the
attempts are ordered by each name's first appearance in the row sequence. -/
theorem claim_C8_create_networks_order (createNet : String → Except String String)
    (excel : DataFrame) (ex : List (String × String)) :
    ((create_networks createNet excel ex).2).Nodup
      ∧ (∀ v : ExcelValue, v ∈ (create_networks createNet excel ex).2
          ↔ v ∈ excel.rows.map (·.networkName) ∧ ¬ isKeyOf ex v = true)
      ∧ ((create_networks createNet excel ex).2).Pairwise
          (fun a b => firstIdx (excel.rows.map (·.networkName)) a
            < firstIdx (excel.rows.map (·.networkName)) b) := by
  rw [create_networks_attempts]
  refine ⟨(nodup_uniqFirst _).filter _, ?_,
    List.Pairwise.sublist (List.filter_sublist _) (uniqFirst_pairwise_firstIdx _)⟩
  intro v
  rw [List.mem_filter, mem_uniqFirst]
  simp

/-- Each entry processed by the inner loop of `create_vlans` adds exactly one
to either the created or the failed counter. -/
theorem createVlanStep_sum
    (cV : String → String → String → String → String → Except String Unit)
    (excel : DataFrame) (k : ExcelValue) (nid : String)
    (acc : Nat × Nat) (vi : VlanEntry) :
    (createVlanStep cV excel k nid acc vi).1 + (createVlanStep cV excel k nid acc vi).2
      = acc.1 + acc.2 + 1 := by
  unfold createVlanStep
  split
  · omega
  · split <;> omega

/-- Each group processed by the outer loop of `create_vlans` adds exactly its
size to the two counters combined. -/
theorem createVlansGroupStep_sum
    (cV : String → String → String → String → String → Except String Unit)
    (excel : DataFrame) (mapping : List (String × String))
    (toCreate : List VlanEntry) (acc : Nat × Nat) (k : ExcelValue) :
    (createVlansGroupStep cV excel mapping toCreate acc k).1
        + (createVlansGroupStep cV excel mapping toCreate acc k).2
      = acc.1 + acc.2
        + (toCreate.filter fun v => decide (v.network_name = k)).length := by
  unfold createVlansGroupStep
  split
  · rw [foldl_pair_sum (createVlanStep cV excel k (keyVal mapping k)) (fun _ => 1)
      (createVlanStep_sum cV excel k (keyVal mapping k)) _ acc, sum_map_one]
  · dsimp only
    omega

/-- Claim C9: the tally of `create_vlans` satisfies
`created + failed = total`, and `total` is the number of validation entries
with status `missing` — every VLAN selected for creation is counted exactly
once, as created or as failed. -/
theorem claim_C9_create_vlans_tally
    (cV : String → String → String → String → String → Except String Unit)
    (excel : DataFrame) (mapping : List (String × String))
    (validation : List VlanEntry) :
    (create_vlans cV excel mapping validation).created
        + (create_vlans cV excel mapping validation).failed
      = (create_vlans cV excel mapping validation).total
    ∧ (create_vlans cV excel mapping validation).total
      = validation.countP fun v => decide (v.status = .missing) := by
  simp only [create_vlans]
  by_cases h : (validation.filter fun v => decide (v.status = .missing)) = []
  · rw [if_pos h]
    refine ⟨rfl, ?_⟩
    rw [List.countP_eq_length_filter, h]
    rfl
  · rw [if_neg h]
    constructor
    · show _ + _ = (validation.filter fun v => decide (v.status = .missing)).length
      rw [foldl_pair_sum (createVlansGroupStep cV excel mapping _)
        (fun k => ((validation.filter fun v => decide (v.status = .missing)).filter
          fun v => decide (v.network_name = k)).length)
        (createVlansGroupStep_sum cV excel mapping _) _ (0, 0)]
      have hcnt : ∀ k : ExcelValue,
          ((validation.filter fun v => decide (v.status = .missing)).filter
            fun v => decide (v.network_name = k)).length
            = (validation.filter fun v => decide (v.status = .missing)).countP
                fun v => decide (v.network_name = k) :=
        fun k => (List.countP_eq_length_filter _ _).symm
      rw [List.map_congr_left fun k _ => hcnt k,
        countP_key_sum (fun v : VlanEntry => v.network_name) _ (nodup_uniqFirst _)]
      have hall : ∀ v ∈ validation.filter fun v => decide (v.status = .missing),
          (decide (v.network_name
              ∈ uniqFirst ((validation.filter fun v => decide (v.status = .missing)).map
                (·.network_name)))) = true := by
        intro v hv
        rw [decide_eq_true_eq, mem_uniqFirst]
        exact List.mem_map_of_mem _ hv
      have hkey : (validation.filter fun v => decide (v.status = .missing)).countP
            (fun a => decide (a.network_name
              ∈ uniqFirst ((validation.filter fun v => decide (v.status = .missing)).map
                (·.network_name))))
          = (validation.filter fun v => decide (v.status = .missing)).length := by
        have h1 := List.countP_congr
          (fun v hv => by simp [hall v hv] :
            ∀ v ∈ validation.filter fun v => decide (v.status = .missing),
              (decide (v.network_name
                ∈ uniqFirst ((validation.filter fun v => decide (v.status = .missing)).map
                  (·.network_name)))) = true ↔ (fun _ : VlanEntry => true) v = true)
        rw [h1, List.countP_true]
      simpa using hkey
    · exact (List.countP_eq_length_filter _ _).symm

/-- Claim C10 counterexample: with a live network listing that succeeds, a
single row whose Network Name cell is NaN produces no `vlan_validation`
entry at all (`groupby` drops NaN keys), so `vlans_valid + vlans_invalid = 0`
while `total_vlans = 1`. -/
theorem claim_C10_counterexample :
    (validate_excel_data getNetsHQ getVlansHas10 "org" dfNanName).vlan_validation = []
      ∧ (validate_excel_data getNetsHQ getVlansHas10 "org" dfNanName).summary.total_vlans
          = 1
      ∧ (validate_excel_data getNetsHQ getVlansHas10 "org" dfNanName).summary.vlans_valid
          + (validate_excel_data getNetsHQ getVlansHas10 "org" dfNanName).summary.vlans_invalid
          = 0 := by
  decide

/-- Claim C10 (amended): when the organization's network listing succeeds,
`validate_excel_data` produces exactly one `vlan_validation` entry per input
row whose Network Name is not NaN (rows with a NaN name are dropped by the
grouping and get no entry), `vlans_valid + vlans_invalid` equals that entry
count, and `total_vlans` is the number of all input rows. -/
theorem claim_C10_entry_accounting
    (gN : String → Except String (List LiveNetwork))
    (gV : String → Except String (List LiveVlan))
    (org : String) (excel : DataFrame) (nets : List LiveNetwork)
    (h : gN org = .ok nets) :
    (validate_excel_data gN gV org excel).vlan_validation.length
        = (excel.rows.filter fun row => decide (row.networkName ≠ .nan)).length
      ∧ (validate_excel_data gN gV org excel).summary.vlans_valid
          + (validate_excel_data gN gV org excel).summary.vlans_invalid
        = (validate_excel_data gN gV org excel).vlan_validation.length
      ∧ (validate_excel_data gN gV org excel).summary.total_vlans
        = excel.rows.length := by
  unfold validate_excel_data
  rw [h]
  refine ⟨?_, ?_, rfl⟩
  · show ((gkeysOf excel).flatMap fun k => groupEntries gV (existingOf nets excel) k
        (excel.rows.filter fun r => decide (r.networkName = k))).length = _
    rw [List.length_flatMap]
    have h1 : (gkeysOf excel).map
          (List.length ∘ fun k => groupEntries gV (existingOf nets excel) k
            (excel.rows.filter fun r => decide (r.networkName = k)))
        = (gkeysOf excel).map
          (fun k => excel.rows.countP fun r => decide (r.networkName = k)) := by
      apply List.map_congr_left
      intro k _
      show (groupEntries gV (existingOf nets excel) k
        (excel.rows.filter fun r => decide (r.networkName = k))).length = _
      rw [groupEntries_length, List.countP_eq_length_filter]
    have hnd : (gkeysOf excel).Nodup := by
      unfold gkeysOf
      exact nodup_uniqFirst _
    rw [h1, countP_key_sum (fun r : Row => r.networkName) (gkeysOf excel) hnd excel.rows]
    have h2 : ∀ row ∈ excel.rows,
        (decide (row.networkName ∈ gkeysOf excel)) = true
          ↔ (decide (row.networkName ≠ ExcelValue.nan)) = true := by
      intro row hrow
      simp only [decide_eq_true_eq]
      unfold gkeysOf
      rw [mem_uniqFirst, List.mem_filter]
      constructor
      · intro hc
        simpa using hc.2
      · intro hnn
        exact ⟨List.mem_map_of_mem _ hrow, by simpa using hnn⟩
    rw [List.countP_congr h2, List.countP_eq_length_filter]
  · show ((gkeysOf excel).flatMap fun k => groupEntries gV (existingOf nets excel) k
          (excel.rows.filter fun r => decide (r.networkName = k))).countP
            (fun e => decide (e.status = .existing))
        + ((gkeysOf excel).flatMap fun k => groupEntries gV (existingOf nets excel) k
          (excel.rows.filter fun r => decide (r.networkName = k))).countP
            (fun e => decide (e.status ≠ .existing))
      = ((gkeysOf excel).flatMap fun k => groupEntries gV (existingOf nets excel) k
          (excel.rows.filter fun r => decide (r.networkName = k))).length
    have h3 := List.length_eq_countP_add_countP
      (fun e : VlanEntry => decide (e.status = .existing))
      ((gkeysOf excel).flatMap fun k => groupEntries gV (existingOf nets excel) k
        (excel.rows.filter fun r => decide (r.networkName = k)))
    have h4 : ((gkeysOf excel).flatMap fun k => groupEntries gV (existingOf nets excel) k
          (excel.rows.filter fun r => decide (r.networkName = k))).countP
            (fun e => decide (e.status ≠ .existing))
        = ((gkeysOf excel).flatMap fun k => groupEntries gV (existingOf nets excel) k
          (excel.rows.filter fun r => decide (r.networkName = k))).countP
            (fun a => decide (¬ (decide (a.status = .existing)) = true)) := by
      apply List.countP_congr
      intro e _
      by_cases hs : e.status = .existing <;> simp [hs]
    rw [h4]
    omega

/-- Witness for the amended C10 at a concrete run (one `HQ` row, the listing
succeeds, VLAN 10 already exists). -/
theorem claim_C10_entry_accounting_witness :
    getNetsHQ "org" = .ok [⟨"N1", "HQ"⟩]
      ∧ ((validate_excel_data getNetsHQ getVlansHas10 "org" dfHQ).vlan_validation.length
            = (dfHQ.rows.filter fun row => decide (row.networkName ≠ .nan)).length
          ∧ (validate_excel_data getNetsHQ getVlansHas10 "org" dfHQ).summary.vlans_valid
              + (validate_excel_data getNetsHQ getVlansHas10 "org" dfHQ).summary.vlans_invalid
            = (validate_excel_data getNetsHQ getVlansHas10 "org" dfHQ).vlan_validation.length
          ∧ (validate_excel_data getNetsHQ getVlansHas10 "org" dfHQ).summary.total_vlans
            = dfHQ.rows.length) :=
  ⟨rfl, claim_C10_entry_accounting getNetsHQ getVlansHas10 "org" dfHQ [⟨"N1", "HQ"⟩] rfl⟩

/-- Restriction of the reconciliation output to one (string) network name:
it is exactly that network's group, independently of what happened in the
other groups. -/
theorem validate_filter_group
    (gN : String → Except String (List LiveNetwork))
    (gV : String → Except String (List LiveVlan))
    (org : String) (excel : DataFrame) (nets : List LiveNetwork) (S : String)
    (hn : gN org = .ok nets) :
    (validate_excel_data gN gV org excel).vlan_validation.filter
        (fun v => decide (v.network_name = .str S))
      = groupEntries gV (existingOf nets excel) (.str S)
          (excel.rows.filter fun r => decide (r.networkName = ExcelValue.str S)) := by
  unfold validate_excel_data
  rw [hn]
  show ((gkeysOf excel).flatMap fun k => groupEntries gV (existingOf nets excel) k
      (excel.rows.filter fun r => decide (r.networkName = k))).filter
        (fun v => decide (v.network_name = .str S)) = _
  have hnd : (gkeysOf excel).Nodup := by
    unfold gkeysOf
    exact nodup_uniqFirst _
  rw [flatMap_filter_single (fun e : VlanEntry => e.network_name)
    (fun k => groupEntries gV (existingOf nets excel) k
      (excel.rows.filter fun r => decide (r.networkName = k)))
    (fun k e he => groupEntries_name gV (existingOf nets excel) k _ e he)
    (gkeysOf excel) hnd (ExcelValue.str S)]
  by_cases hmem : ExcelValue.str S ∈ gkeysOf excel
  · rw [if_pos hmem]
  · rw [if_neg hmem]
    have hfil : excel.rows.filter (fun r => decide (r.networkName = ExcelValue.str S))
        = [] := by
      rw [List.filter_eq_nil_iff]
      intro r hr hcon
      apply hmem
      have hname : r.networkName = ExcelValue.str S := by simpa using hcon
      unfold gkeysOf
      rw [mem_uniqFirst, List.mem_filter]
      exact ⟨hname ▸ List.mem_map_of_mem _ hr, by simp⟩
    rw [hfil, groupEntries_nil]

/-- Claim C5: when the live-VLAN fetch fails for network `A` (resolved to
`idA`) but succeeds for network `B`, every record of `A` is marked
`validation_error` carrying the failure detail, while the records of `B` are
still classified normally (existing/missing per the fetched list) — the
fetch failure for `A` does not abort the run. -/
theorem claim_C5_partial_isolation
    (gN : String → Except String (List LiveNetwork))
    (gV : String → Except String (List LiveVlan))
    (org : String) (excel : DataFrame) (nets : List LiveNetwork)
    (A B idA idB : String) (e : String) (vl : List LiveVlan)
    (hn : gN org = .ok nets)
    (hA : networkMapLookup nets A = some idA) (hfa : gV idA = .error e)
    (hB : networkMapLookup nets B = some idB) (hfb : gV idB = .ok vl) :
    (validate_excel_data gN gV org excel).vlan_validation.filter
        (fun v => decide (v.network_name = .str A))
      = (excel.rows.filter fun r => decide (r.networkName = ExcelValue.str A)).map
          (fun r => ⟨.str A, r.vlanId, r.vlanName, .validation_error,
            "Could not validate VLAN: " ++ e, none⟩)
    ∧ (validate_excel_data gN gV org excel).vlan_validation.filter
        (fun v => decide (v.network_name = .str B))
      = (excel.rows.filter fun r => decide (r.networkName = ExcelValue.str B)).map
          (classifyRow (.str B) vl) := by
  constructor
  · rw [validate_filter_group gN gV org excel nets A hn]
    by_cases hmem : ExcelValue.str A ∈ excel.rows.map (·.networkName)
    · have hlk : (existingOf nets excel).lookup A = some idA := by
        unfold existingOf
        apply existing_lookup nets A idA
        · unfold excelNetworksOf
          rw [mem_uniqFirst]
          exact hmem
        · exact hA
      simp only [groupEntries]
      rw [hlk]
      dsimp only
      rw [hfa]
    · have hfil : excel.rows.filter (fun r => decide (r.networkName = ExcelValue.str A))
          = [] := by
        rw [List.filter_eq_nil_iff]
        intro r hr hcon
        apply hmem
        have hname : r.networkName = ExcelValue.str A := by simpa using hcon
        exact hname ▸ List.mem_map_of_mem _ hr
      rw [hfil, groupEntries_nil, List.map_nil]
  · rw [validate_filter_group gN gV org excel nets B hn]
    by_cases hmem : ExcelValue.str B ∈ excel.rows.map (·.networkName)
    · have hlk : (existingOf nets excel).lookup B = some idB := by
        unfold existingOf
        apply existing_lookup nets B idB
        · unfold excelNetworksOf
          rw [mem_uniqFirst]
          exact hmem
        · exact hB
      simp only [groupEntries]
      rw [hlk]
      dsimp only
      rw [hfb]
    · have hfil : excel.rows.filter (fun r => decide (r.networkName = ExcelValue.str B))
          = [] := by
        rw [List.filter_eq_nil_iff]
        intro r hr hcon
        apply hmem
        have hname : r.networkName = ExcelValue.str B := by simpa using hcon
        exact hname ▸ List.mem_map_of_mem _ hr
      rw [hfil, groupEntries_nil, List.map_nil]

/-- Witness for C5: two networks `AA`/`BB`, the VLAN fetch for `AA` times
out while `BB`'s succeeds. -/
theorem claim_C5_partial_isolation_witness :
    getNetsAB "org" = .ok [⟨"NA", "AA"⟩, ⟨"NB", "BB"⟩]
      ∧ networkMapLookup [⟨"NA", "AA"⟩, ⟨"NB", "BB"⟩] "AA" = some "NA"
      ∧ getVlansFailA "NA" = .error "read timeout"
      ∧ networkMapLookup [⟨"NA", "AA"⟩, ⟨"NB", "BB"⟩] "BB" = some "NB"
      ∧ getVlansFailA "NB" = .ok [⟨20, "Voice"⟩]
      ∧ ((validate_excel_data getNetsAB getVlansFailA "org" dfTwoNets).vlan_validation.filter
            (fun v => decide (v.network_name = .str "AA"))
          = (dfTwoNets.rows.filter
              fun r => decide (r.networkName = ExcelValue.str "AA")).map
              (fun r => ⟨.str "AA", r.vlanId, r.vlanName, .validation_error,
                "Could not validate VLAN: " ++ "read timeout", none⟩)
        ∧ (validate_excel_data getNetsAB getVlansFailA "org" dfTwoNets).vlan_validation.filter
            (fun v => decide (v.network_name = .str "BB"))
          = (dfTwoNets.rows.filter
              fun r => decide (r.networkName = ExcelValue.str "BB")).map
              (classifyRow (.str "BB") [⟨20, "Voice"⟩])) :=
  ⟨rfl, by decide, rfl, by decide, rfl,
    claim_C5_partial_isolation getNetsAB getVlansFailA "org" dfTwoNets
      [⟨"NA", "AA"⟩, ⟨"NB", "BB"⟩] "AA" "BB" "NA" "NB" "read timeout" [⟨20, "Voice"⟩]
      rfl (by decide) rfl (by decide) rfl⟩

/-- `networks_found` of the summary is the size of the existing-network map,
in both the success and the fetch-failure branch. -/
theorem networks_found_eq
    (gN : String → Except String (List LiveNetwork))
    (gV : String → Except String (List LiveVlan))
    (org : String) (excel : DataFrame) :
    (validate_excel_data gN gV org excel).summary.networks_found
      = (validate_excel_data gN gV org excel).networks.length := by
  unfold validate_excel_data
  cases gN org <;> rfl

/-- Claim C4: when the format check passes, `validate_excel` carries the
reconciliation output through, and its `success` verdict is true iff at
least one desired network resolved to a live id, no record carries
`validation_error`, and no record carries `network_missing` (records with
status `missing` do not block it). -/
theorem claim_C4_ready_verdict
    (gN : String → Except String (List LiveNetwork))
    (gV : String → Except String (List LiveVlan))
    (org : String) (df : DataFrame)
    (hfmt : (validate_excel_format (some df)).1 = true) :
    (validate_excel gN gV org (some df)).validation_results
        = some (validate_excel_data gN gV org df)
      ∧ ((validate_excel gN gV org (some df)).success = true
          ↔ (validate_excel_data gN gV org df).networks ≠ []
            ∧ (∀ v ∈ (validate_excel_data gN gV org df).vlan_validation,
                v.status ≠ .validation_error)
            ∧ (∀ v ∈ (validate_excel_data gN gV org df).vlan_validation,
                v.status ≠ .network_missing)) := by
  have hne : ¬ (validate_excel_format (some df)).1 = false := by simp [hfmt]
  have e1 : 0 < (validate_excel_data gN gV org df).summary.networks_found
      ↔ (validate_excel_data gN gV org df).networks ≠ [] := by
    rw [networks_found_eq]
    exact List.length_pos
  have e2 : ((validate_excel_data gN gV org df).vlan_validation.filter
        fun v => decide (v.status = .validation_error)) = []
      ↔ ∀ v ∈ (validate_excel_data gN gV org df).vlan_validation,
          v.status ≠ .validation_error := by
    rw [List.filter_eq_nil_iff]
    simp
  have e3 : ((validate_excel_data gN gV org df).vlan_validation.filter
        fun v => decide (v.status = .network_missing)) = []
      ↔ ∀ v ∈ (validate_excel_data gN gV org df).vlan_validation,
          v.status ≠ .network_missing := by
    rw [List.filter_eq_nil_iff]
    simp
  constructor
  · simp only [validate_excel]
    rw [if_neg hne]
  · simp only [validate_excel]
    rw [if_neg hne]
    show decide _ = true ↔ _
    rw [decide_eq_true_eq]
    exact and_congr e1 (and_congr e2 e3)

/-- Witness for C4 at a concrete passing run. -/
theorem claim_C4_ready_verdict_witness :
    (validate_excel_format (some dfHQ)).1 = true
      ∧ ((validate_excel getNetsHQ getVlansHas10 "org" (some dfHQ)).validation_results
            = some (validate_excel_data getNetsHQ getVlansHas10 "org" dfHQ)
          ∧ ((validate_excel getNetsHQ getVlansHas10 "org" (some dfHQ)).success = true
              ↔ (validate_excel_data getNetsHQ getVlansHas10 "org" dfHQ).networks ≠ []
                ∧ (∀ v ∈ (validate_excel_data getNetsHQ getVlansHas10 "org" dfHQ).vlan_validation,
                    v.status ≠ .validation_error)
                ∧ (∀ v ∈ (validate_excel_data getNetsHQ getVlansHas10 "org" dfHQ).vlan_validation,
                    v.status ≠ .network_missing))) :=
  ⟨by decide, claim_C4_ready_verdict getNetsHQ getVlansHas10 "org" dfHQ (by decide)⟩

/-- Claim C1 is violated by the code: in an `apply-from-excel` run whose
validation passes but whose only VLAN update fails (`error_count = 1`,
returned bool `False`), `main` ignores the result and exits 0; likewise a
`create-vlans` run whose only creation fails (`failed = 1`) exits 0. -/
theorem claim_C1_failed_apply_exits_zero :
    apply_excel_data apiAlwaysFail dfHQ [("HQ", "N1")] = (0, 1, false)
      ∧ applyFromExcelExit getNetsHQ getVlansHas10 apiAlwaysFail "org" (some dfHQ) = 0
      ∧ create_vlans apiAlwaysFail dfHQ [("HQ", "N1")] [missingEntryHQ] = ⟨0, 1, 1⟩
      ∧ createVlansExit getNetsHQ getVlansNone apiAlwaysFail "org" (some dfHQ) = 0 := by
  decide
